import Mathlib

/-!
Verification development for the interview-simulator agent
(`app/agent.py`, `app/agents/interview_agent.py`,
`app/agents/interview/interview_agent.py`).

Two session machines exist in the source and both are embedded here:

* the module-level tool path of `app/agent.py` (shared with the `_sync`
  twins in `app/agents/interview_agent.py`, whose bodies are identical):
  sessions are plain dictionaries stored in the process-global
  `interview_sessions` mapping, operated on by
  `analyze_job_and_generate_questions`, `ask_next_interview_question`,
  `record_interview_answer` and `provide_feedback`;

* the class-based `InterviewAgent` of
  `app/agents/interview/interview_agent.py` with its pydantic
  `InterviewSession` state and the methods `get_next_question`,
  `record_answer`, `pause_interview`, `resume_interview`,
  `get_session_status`, plus the question loader `_load_questions`.

Wall-clock values (`datetime.now()`) are threaded as explicit string
parameters or omitted from result views where noted; they carry no
control-flow weight in the source.
-/

/-! ## Module-level tool path (`app/agent.py`) -/

/-- The `vacancy_info` dictionary as read by the tool functions: every
access in the source is `vacancy_info.get(key, default)`, so the fields
are optional. -/
structure VacancyInfo where
  job_title : Option String
  company_name : Option String
  seniority_level : Option String
deriving DecidableEq

/-- A generated question dictionary as produced by the question-generation
adapter and stored in `session["questions"]`.  All reads in the source go
through `.get(key, default)`, hence optional fields. -/
structure GenQuestion where
  question : Option String
  question_type : Option String
  difficulty_level : Option String
  skills_assessed : Option (List String)
deriving DecidableEq

/-- The answer dictionary appended by `record_interview_answer`
(`app/agent.py` lines 212-221).  The `timestamp` field is the
`datetime.now().isoformat()` string, threaded here as a parameter. -/
structure ToolAnswerRecord where
  question_id : String
  question_text : String
  answer_text : String
  notes : String
  timestamp : String
  question_type : String
  difficulty_level : String
  skills_assessed : List String
deriving DecidableEq

/-- One entry of the global `interview_sessions` dictionary, as created by
`analyze_job_and_generate_questions` (`app/agent.py` lines 81-91).
Fields not read by any embedded operation (`interview_context`,
`interview_focus`, `evaluation_criteria`, `candidate_name`) are omitted. -/
structure ToolSession where
  vacancy_info : VacancyInfo
  questions : List GenQuestion
  current_question_index : Nat
  answers : List ToolAnswerRecord
  status : String
deriving DecidableEq

/-- The process-global `interview_sessions` dictionary. -/
def Directory : Type := String → Option ToolSession

/-- `interview_sessions[session_id] = s` (dictionary insert/overwrite). -/
def updateDir (d : Directory) (session_id : String) (s : ToolSession) : Directory :=
  fun k => if k = session_id then some s else d k

/-- The `session_summary` dictionary built by the completed branches of
`ask_next_interview_question` and `record_interview_answer`. -/
structure SessionSummary where
  total_questions : Nat
  total_answers : Nat
  position : String
deriving DecidableEq

/-- The `question` payload of a successful `ask_next_interview_question`
(`app/agent.py` lines 156-164; the dictionary key `"type"` is rendered as
the field `qtype`). -/
structure QuestionView where
  id : String
  text : String
  qtype : String
  difficulty : String
  skills_assessed : List String
  question_number : Nat
  total_questions : Nat
deriving DecidableEq

/-- The `session_info` payload of a successful
`ask_next_interview_question` (`app/agent.py` lines 165-170). -/
structure SessionInfoView where
  session_id : String
  position : String
  current_question : Nat
  total_questions : Nat
deriving DecidableEq

/-- Return value of `ask_next_interview_question`: the not-found error
dictionary, the completed dictionary, or the question dictionary. -/
inductive NextOutcome where
  | sessionNotFound (error : String)
  | completed (message : String) (session_summary : SessionSummary)
  | question (question : QuestionView) (session_info : SessionInfoView)
deriving DecidableEq

/-- Return value of `record_interview_answer`. -/
inductive RecordOutcome where
  | sessionNotFound (error : String)
  | noMoreQuestions (error : String)
  | completed (message : String) (session_summary : SessionSummary)
  | success (message : String) (next_question : NextOutcome)
deriving DecidableEq

/-- `True` on the two non-error constructors of `RecordOutcome`. -/
def RecordOutcome.isOk : RecordOutcome → Bool
  | .completed _ _ => true
  | .success _ _ => true
  | _ => false

/-- `ask_next_interview_question` (`app/agent.py` lines 119-177).  The
source checks `current_index >= len(questions)` first and returns the
completed summary; the dependent `if` here carries the same split with
the branches swapped.  The function performs no assignment, so the
directory is returned unchanged in every branch. -/
def ask_next_interview_question (d : Directory) (session_id : String) :
    NextOutcome × Directory :=
  match d session_id with
  | none =>
      (.sessionNotFound ("Session " ++ session_id ++ " not found. Please start with job analysis first."), d)
  | some session =>
      if h : session.current_question_index < session.questions.length then
        let current_question := session.questions.get ⟨session.current_question_index, h⟩
        (.question
          { id := "q" ++ toString (session.current_question_index + 1)
            text := current_question.question.getD ""
            qtype := current_question.question_type.getD "general"
            difficulty := current_question.difficulty_level.getD "medium"
            skills_assessed := current_question.skills_assessed.getD []
            question_number := session.current_question_index + 1
            total_questions := session.questions.length }
          { session_id := session_id
            position := session.vacancy_info.job_title.getD "Unknown Position"
            current_question := session.current_question_index + 1
            total_questions := session.questions.length }, d)
      else
        (.completed "Interview completed - no more questions"
          { total_questions := session.questions.length
            total_answers := session.answers.length
            position := session.vacancy_info.job_title.getD "Unknown" }, d)

/-- `record_interview_answer` (`app/agent.py` lines 179-251).  The source
guards `current_index >= len(questions)` and otherwise appends the answer
dictionary, increments `current_question_index`, sets
`status = "completed"` when the new index reaches `len(questions)`, and
otherwise returns the result of `ask_next_interview_question` on the
updated storage.  `question_id` is stored verbatim and never compared to
anything. -/
def record_interview_answer (d : Directory)
    (session_id question_id answer_text notes timestamp : String) :
    RecordOutcome × Directory :=
  match d session_id with
  | none => (.sessionNotFound ("Session " ++ session_id ++ " not found"), d)
  | some session =>
      if h : session.current_question_index < session.questions.length then
        let current_question := session.questions.get ⟨session.current_question_index, h⟩
        let answer_record : ToolAnswerRecord :=
          { question_id := question_id
            question_text := current_question.question.getD ""
            answer_text := answer_text
            notes := notes
            timestamp := timestamp
            question_type := current_question.question_type.getD "general"
            difficulty_level := current_question.difficulty_level.getD "medium"
            skills_assessed := current_question.skills_assessed.getD [] }
        let session' : ToolSession :=
          { session with
            answers := session.answers ++ [answer_record]
            current_question_index := session.current_question_index + 1 }
        if session'.questions.length ≤ session'.current_question_index then
          let session'' : ToolSession := { session' with status := "completed" }
          (.completed "Interview completed successfully"
            { total_questions := session''.questions.length
              total_answers := session''.answers.length
              position := session''.vacancy_info.job_title.getD "Unknown" },
           updateDir d session_id session'')
        else
          let d' := updateDir d session_id session'
          (.success "Answer recorded successfully" (ask_next_interview_question d' session_id).1, d')
      else
        (.noMoreQuestions "No more questions to answer", d)

/-- Return value of `provide_feedback` up to (and including) the decision
to invoke the feedback adapter; the `adapterCalled` constructor carries
the arguments handed to `provide_feedback_sync`.  The post-adapter
reshaping of the adapter reply is outside every claim and not modelled. -/
inductive FeedbackOutcome where
  | sessionNotFound (error : String)
  | notCompleted (error : String)
  | noData (error : String)
  | adapterCalled (questions : List GenQuestion) (answers : List ToolAnswerRecord)
deriving DecidableEq

/-- `provide_feedback` (`app/agent.py` lines 253-296): session lookup,
the `status != "completed"` guard, the empty questions/answers guard, and
only then the adapter call. -/
def provide_feedback (d : Directory) (session_id : String) : FeedbackOutcome :=
  match d session_id with
  | none => .sessionNotFound ("Session " ++ session_id ++ " not found")
  | some session =>
      if session.status ≠ "completed" then
        .notCompleted "Interview not completed yet. Please finish all questions first."
      else if session.questions.isEmpty || session.answers.isEmpty then
        .noData "No questions or answers found in session"
      else
        .adapterCalled session.questions session.answers

/-- Result of the (external) vacancy-analysis adapter as consumed by
`analyze_job_and_generate_questions`. -/
structure VacancyResult where
  success : Bool
  vacancy_info : VacancyInfo
  error : Option String
deriving DecidableEq

/-- Result of the (external) question-generation adapter as consumed by
`analyze_job_and_generate_questions`. -/
structure QuestionsResult where
  success : Bool
  questions : List GenQuestion
  error : Option String
deriving DecidableEq

/-- Return value of `analyze_job_and_generate_questions`. -/
inductive AnalyzeOutcome where
  | vacancyError (output error : String)
  | questionsError (output error : String)
  | success (output session_id : String) (total_questions : Nat)
deriving DecidableEq

/-- The fresh session dictionary stored by
`analyze_job_and_generate_questions` (`app/agent.py` lines 81-91):
`current_question_index = 0`, `answers = []`, `status = "ready"`. -/
def freshToolSession (vr : VacancyResult) (qr : QuestionsResult) : ToolSession :=
  { vacancy_info := vr.vacancy_info
    questions := qr.questions
    current_question_index := 0
    answers := []
    status := "ready" }

/-- `analyze_job_and_generate_questions` (`app/agent.py` lines 43-114),
parameterized by the two adapter replies (the adapters are external
model calls).  On success it assigns
`interview_sessions["default"] = {...}` unconditionally — a plain
dictionary overwrite with no existence check. -/
def analyze_job_and_generate_questions (d : Directory)
    (vr : VacancyResult) (qr : QuestionsResult) : AnalyzeOutcome × Directory :=
  if !vr.success then
    (.vacancyError ("Error analyzing job vacancy: " ++ vr.error.getD "Unknown error")
      (vr.error.getD "Unknown error"), d)
  else if !qr.success then
    (.questionsError
      ("Job analysis successful for " ++ vr.vacancy_info.job_title.getD "Unknown Position"
        ++ ", but error generating questions: " ++ qr.error.getD "Unknown error")
      (qr.error.getD "Unknown error"), d)
  else
    (.success
      ("Successfully analyzed " ++ vr.vacancy_info.job_title.getD "Unknown Position"
        ++ " and generated " ++ toString qr.questions.length ++ " interview questions")
      "default" qr.questions.length,
     updateDir d "default" (freshToolSession vr qr))

/-- `k` in-order `record_interview_answer` calls starting from `d`: step
`j` (0-based) records answer `answer_texts j` for the delivered question
id `"q" ++ toString (j+1)` with empty notes and timestamp `timestamps j`. -/
def recordSeq (d : Directory) (session_id : String)
    (answer_texts timestamps : Nat → String) : Nat → Directory
  | 0 => d
  | k + 1 =>
      (record_interview_answer (recordSeq d session_id answer_texts timestamps k)
        session_id ("q" ++ toString (k + 1)) (answer_texts k) "" (timestamps k)).2

/-! ## Class-based machine (`app/agents/interview/interview_agent.py`) -/

/-- The pydantic `InterviewQuestion` model (lines 24-30): three required
string fields, `difficulty` defaulting to `"medium"`. -/
structure InterviewQuestion where
  question_id : String
  question_text : String
  category : String
  difficulty : String
deriving DecidableEq

/-- The answer dictionary appended by `InterviewAgent.record_answer`
(lines 178-185); `timestamp` is the `datetime.now().isoformat()` string,
threaded as a parameter. -/
structure ClassAnswerRecord where
  question_id : String
  answer_text : String
  notes : String
  timestamp : String
  question_category : String
  question_difficulty : String
deriving DecidableEq

/-- The pydantic `InterviewSession` model (lines 33-43).  `start_time`
(a wall-clock datetime used only for the elapsed-time display string) is
omitted. -/
structure InterviewSession where
  session_id : String
  candidate_name : String
  position : String
  current_question_index : Nat
  questions : List InterviewQuestion
  answers : List ClassAnswerRecord
  session_status : String
deriving DecidableEq

/-- The session state built by `InterviewAgent.__init__` (lines 49-65)
once `_load_questions` has produced `qs`: index 0, no answers, status
`"active"`. -/
def init_session (session_id candidate_name position : String)
    (qs : List InterviewQuestion) : InterviewSession :=
  { session_id := session_id
    candidate_name := candidate_name
    position := position
    current_question_index := 0
    questions := qs
    answers := []
    session_status := "active" }

/-- The `categories[category]["count"] += 1` loop body of
`_get_session_summary` (lines 295-301): insertion-ordered counting map. -/
def bump_category (m : List (String × Nat)) (c : String) : List (String × Nat) :=
  if m.any (fun p => p.1 == c) then
    m.map (fun p => if p.1 == c then (p.1, p.2 + 1) else p)
  else m ++ [(c, 1)]

/-- Return value of `_get_session_summary` (lines 290-307); the
`completion_time` wall-clock string is omitted. -/
inductive ClassSummary where
  | noAnswers (message : String)
  | stats (total_questions_asked : Nat) (categories_covered : List (String × Nat))
deriving DecidableEq

/-- `InterviewAgent._get_session_summary` (lines 290-307). -/
def get_session_summary (s : InterviewSession) : ClassSummary :=
  if s.answers.isEmpty then .noAnswers "No answers recorded yet"
  else .stats s.answers.length
    (s.answers.foldl (fun m a => bump_category m a.question_category) [])

/-- The `question` payload of a successful `get_next_question`
(lines 136-144). -/
structure ClassQuestionView where
  id : String
  text : String
  category : String
  difficulty : String
  question_number : Nat
  total_questions : Nat
deriving DecidableEq

/-- Return value of `get_next_question`; the `session_info` block's
`elapsed_time` wall-clock string is omitted, its `candidate_name` and
`position` are kept. -/
inductive ClassNextOutcome where
  | completed (message : String) (session_summary : ClassSummary)
  | success (question : ClassQuestionView) (candidate_name : String) (position : String)
deriving DecidableEq

/-- `InterviewAgent.get_next_question` (lines 120-150).  The source
checks `current_question_index >= len(questions)` first; the dependent
`if` here is the same split with the branches swapped.  The method
performs no assignment. -/
def get_next_question (s : InterviewSession) : ClassNextOutcome :=
  if h : s.current_question_index < s.questions.length then
    let current_question := s.questions.get ⟨s.current_question_index, h⟩
    .success
      { id := current_question.question_id
        text := current_question.question_text
        category := current_question.category
        difficulty := current_question.difficulty
        question_number := s.current_question_index + 1
        total_questions := s.questions.length }
      s.candidate_name s.position
  else
    .completed "Interview completed - no more questions" (get_session_summary s)

/-- Return value of `record_answer`. -/
inductive ClassRecordOutcome where
  | notFound (message : String)
  | completed (message : String) (session_summary : ClassSummary)
  | success (message : String) (next_question : ClassNextOutcome)
deriving DecidableEq

/-- `True` on the two non-error constructors of `ClassRecordOutcome`. -/
def ClassRecordOutcome.isOk : ClassRecordOutcome → Bool
  | .completed _ _ => true
  | .success _ _ => true
  | _ => false

/-- `InterviewAgent.record_answer` (lines 152-212).  The source scans
`self.session.questions` for the FIRST question whose `question_id`
equals the argument (a whole-list search, not a comparison against the
question at `current_question_index`); an unmatched id returns the
not-found error with no state change; a matched id appends the snapshot
of the MATCHED question, increments `current_question_index`, and sets
`session_status = "completed"` when the new index reaches
`len(questions)` — there is no guard on `current_question_index` at all. -/
def record_answer (s : InterviewSession)
    (question_id answer_text notes timestamp : String) :
    ClassRecordOutcome × InterviewSession :=
  match s.questions.find? (fun q => q.question_id == question_id) with
  | none => (.notFound ("Question with ID " ++ question_id ++ " not found"), s)
  | some current_question =>
      let answer_record : ClassAnswerRecord :=
        { question_id := question_id
          answer_text := answer_text
          notes := notes
          timestamp := timestamp
          question_category := current_question.category
          question_difficulty := current_question.difficulty }
      let s' : InterviewSession :=
        { s with
          answers := s.answers ++ [answer_record]
          current_question_index := s.current_question_index + 1 }
      if s'.questions.length ≤ s'.current_question_index then
        let s'' : InterviewSession := { s' with session_status := "completed" }
        (.completed "Interview completed successfully" (get_session_summary s''), s'')
      else
        (.success "Answer recorded successfully" (get_next_question s'), s')

/-- The `session_info` payload of `pause_interview` (lines 226-231);
`elapsed_time` omitted. -/
structure PauseInfo where
  status : String
  current_question : Nat
  total_questions : Nat
deriving DecidableEq

/-- Return value of `pause_interview`: the source has a single
unconditional success return. -/
inductive PauseOutcome where
  | success (message : String) (session_info : PauseInfo)
deriving DecidableEq

/-- `InterviewAgent.pause_interview` (lines 214-232): sets
`session_status = "paused"` unconditionally — no check of the current
status whatsoever — and returns success. -/
def pause_interview (s : InterviewSession) : PauseOutcome × InterviewSession :=
  let s' : InterviewSession := { s with session_status := "paused" }
  (.success "Interview paused"
    { status := s'.session_status
      current_question := s'.current_question_index + 1
      total_questions := s'.questions.length }, s')

/-- Return value of `resume_interview`. -/
inductive ResumeOutcome where
  | error (message : String)
  | success (message : String) (next_question : ClassNextOutcome)
deriving DecidableEq

/-- `InterviewAgent.resume_interview` (lines 234-253): guarded by
`session_status != "paused"`. -/
def resume_interview (s : InterviewSession) : ResumeOutcome × InterviewSession :=
  if s.session_status ≠ "paused" then (.error "Interview is not paused", s)
  else
    let s' : InterviewSession := { s with session_status := "active" }
    (.success "Interview resumed" (get_next_question s'), s')

/-- The view returned by `get_session_status` (lines 255-274);
`elapsed_time` and `start_time` wall-clock strings omitted. -/
structure SessionStatusView where
  session_id : String
  candidate_name : String
  position : String
  status : String
  current_question : Nat
  total_questions : Nat
  completed_questions : Nat
  percentage_complete : ℚ
deriving DecidableEq

/-- `InterviewAgent.get_session_status` (lines 255-274): a read-only
projection; `percentage_complete` is
`len(answers)/len(questions)*100 if questions else 0`. -/
def get_session_status (s : InterviewSession) : SessionStatusView :=
  { session_id := s.session_id
    candidate_name := s.candidate_name
    position := s.position
    status := s.session_status
    current_question := s.current_question_index + 1
    total_questions := s.questions.length
    completed_questions := s.answers.length
    percentage_complete :=
      if s.questions.isEmpty then 0
      else (s.answers.length : ℚ) / (s.questions.length : ℚ) * 100 }

/-- One call on the class-based machine. -/
inductive Op where
  | next_q
  | record (question_id answer_text notes timestamp : String)
  | pause
  | resume
  | status_op
deriving DecidableEq

/-- The session state after one call.  `get_next_question` and
`get_session_status` perform no assignment, so they leave the state as
is; the other three return their updated state. -/
def applyOp (s : InterviewSession) : Op → InterviewSession
  | .next_q => s
  | .record question_id answer_text notes timestamp =>
      (record_answer s question_id answer_text notes timestamp).2
  | .pause => (pause_interview s).2
  | .resume => (resume_interview s).2
  | .status_op => s

/-- The session state after a sequence of calls. -/
def runOps (s : InterviewSession) (ops : List Op) : InterviewSession :=
  ops.foldl applyOp s

/-- Number of `record_answer` calls in a call sequence. -/
def countRecord : List Op → Nat
  | [] => 0
  | .record _ _ _ _ :: rest => countRecord rest + 1
  | _ :: rest => countRecord rest

/-! ## Question Store Loader (`_load_questions`, lines 67-89) -/

/-- One raw question record from the parsed `questions.json` payload, as
handed to `InterviewQuestion(**q_data)`: every field may be absent. -/
structure RawQuestion where
  question_id : Option String
  question_text : Option String
  category : Option String
  difficulty : Option String
deriving DecidableEq

/-- Pydantic validation of `InterviewQuestion(**q_data)`: the three
required fields must be present (any string value, the empty string
included, passes); `difficulty` defaults to `"medium"`.  `none` stands
for the pydantic `ValidationError`. -/
def validate_question (r : RawQuestion) : Option InterviewQuestion :=
  match r.question_id, r.question_text, r.category with
  | some question_id, some question_text, some category =>
      some { question_id := question_id
             question_text := question_text
             category := category
             difficulty := r.difficulty.getD "medium" }
  | _, _, _ => none

/-- The per-record loop of `_load_questions` (lines 81-84) over the
already-parsed record list (file I/O and JSON parsing are external).
The loop appends validated questions one by one inside a `try` whose
`except` merely logs, so the first invalid record aborts the loop,
keeping the questions appended so far; the Boolean reports whether the
error branch was taken. -/
def load_questions : List RawQuestion → List InterviewQuestion × Bool
  | [] => ([], false)
  | r :: rest =>
      match validate_question r with
      | none => ([], true)
      | some q =>
          match load_questions rest with
          | (qs, err) => (q :: qs, err)

/-! ## Concrete fixtures -/

/-- A behavioral generated question. -/
def genQ1 : GenQuestion :=
  { question := some "Tell me about yourself"
    question_type := some "behavioral"
    difficulty_level := some "medium"
    skills_assessed := some [] }

/-- A technical generated question. -/
def genQ2 : GenQuestion :=
  { question := some "Explain REST"
    question_type := some "technical"
    difficulty_level := some "hard"
    skills_assessed := some ["api"] }

/-- A vacancy-info fixture. -/
def vacW : VacancyInfo :=
  { job_title := some "Backend Eng"
    company_name := some "Acme"
    seniority_level := some "senior" }

/-- A fresh two-question tool session as stored by
`analyze_job_and_generate_questions`. -/
def toolSession2 : ToolSession :=
  { vacancy_info := vacW
    questions := [genQ1, genQ2]
    current_question_index := 0
    answers := []
    status := "ready" }

/-- Directory holding only `toolSession2` under `"default"`. -/
def dir2 : Directory := fun k => if k = "default" then some toolSession2 else none

/-- A recorded answer fixture on the tool path. -/
def toolAnswer1 : ToolAnswerRecord :=
  { question_id := "q1"
    question_text := "Tell me about yourself"
    answer_text := "I am..."
    notes := ""
    timestamp := "t1"
    question_type := "behavioral"
    difficulty_level := "medium"
    skills_assessed := [] }

/-- A completed one-question tool session. -/
def toolSessionDone : ToolSession :=
  { vacancy_info := vacW
    questions := [genQ1]
    current_question_index := 1
    answers := [toolAnswer1]
    status := "completed" }

/-- Directory holding only `toolSessionDone` under `"default"`. -/
def dirDone : Directory := fun k => if k = "default" then some toolSessionDone else none

/-- A tool session with zero questions. -/
def toolSession0 : ToolSession :=
  { vacancy_info := vacW
    questions := []
    current_question_index := 0
    answers := []
    status := "ready" }

/-- Directory holding only `toolSession0` under `"empty"`. -/
def dirEmptyQ : Directory := fun k => if k = "empty" then some toolSession0 else none

/-- Class-based question 1. -/
def cq1 : InterviewQuestion :=
  { question_id := "q1", question_text := "Tell me about yourself"
    category := "behavioral", difficulty := "medium" }

/-- Class-based question 2. -/
def cq2 : InterviewQuestion :=
  { question_id := "q2", question_text := "Explain REST"
    category := "technical", difficulty := "medium" }

/-- Fresh class session with the two fixture questions. -/
def cSession2 : InterviewSession := init_session "s1" "Ana" "Backend Eng" [cq1, cq2]

/-- Fresh class session with one fixture question. -/
def cSession1 : InterviewSession := init_session "s1" "Ana" "Backend Eng" [cq1]

/-- A recorded class answer fixture. -/
def cAnswer1 : ClassAnswerRecord :=
  { question_id := "q1", answer_text := "I am...", notes := ""
    timestamp := "t1", question_category := "behavioral", question_difficulty := "medium" }

/-- A completed one-question class session. -/
def cSessionDone : InterviewSession :=
  { session_id := "s1", candidate_name := "Ana", position := "Backend Eng"
    current_question_index := 1, questions := [cq1], answers := [cAnswer1]
    session_status := "completed" }

/-- A paused one-question class session. -/
def cSessionPaused : InterviewSession :=
  { session_id := "s1", candidate_name := "Ana", position := "Backend Eng"
    current_question_index := 0, questions := [cq1], answers := []
    session_status := "paused" }

/-! ## Claim C1 -/

/-- Claim C1 counterexample: in a fresh session with questions `q1, q2`
(`current_index = 0`), `record_answer` with `question_id = "q2"` — the
question that is NOT at `current_index` — does not fail with any
mismatch error: it succeeds and advances `current_question_index` to 1,
refuting "fails with `QuestionMismatchError` ... and leaves the session
state unchanged". -/
theorem c1_counterexample :
    cSession2.current_question_index = 0 ∧
    cSession2.questions.map InterviewQuestion.question_id = ["q1", "q2"] ∧
    (record_answer cSession2 "q2" "REST is..." "" "t0").1.isOk = true ∧
    (record_answer cSession2 "q2" "REST is..." "" "t0").2.current_question_index = 1 := by
  decide

/-- Claim C1 (amended): `record_answer` performs a whole-list id lookup,
not a comparison with the question at `current_index`: it fails (with a
not-found error, leaving the session unchanged) exactly when
`question_id` matches no question in the session; any matching id —
including the id of a question other than the one at `current_index` —
is accepted: the answer is recorded with the matched question's
category/difficulty snapshot and `current_question_index` is
incremented.  Out-of-order recording is silently accepted, not
rejected. -/
theorem c1_record_answer_by_id_lookup (s : InterviewSession)
    (question_id answer_text notes timestamp : String) :
    ((∀ q ∈ s.questions, q.question_id ≠ question_id) →
      record_answer s question_id answer_text notes timestamp =
        (.notFound ("Question with ID " ++ question_id ++ " not found"), s)) ∧
    (∀ q, s.questions.find? (fun q => q.question_id == question_id) = some q →
      (record_answer s question_id answer_text notes timestamp).1.isOk = true ∧
      (record_answer s question_id answer_text notes timestamp).2.answers =
        s.answers ++ [⟨question_id, answer_text, notes, timestamp, q.category, q.difficulty⟩] ∧
      (record_answer s question_id answer_text notes timestamp).2.current_question_index =
        s.current_question_index + 1) := by
  constructor
  · intro hnone
    have hfind : s.questions.find? (fun q => q.question_id == question_id) = none := by
      rw [List.find?_eq_none]
      intro q hq
      simpa using hnone q hq
    simp [record_answer, hfind]
  · intro q hfind
    simp only [record_answer, hfind]
    split <;> simp [ClassRecordOutcome.isOk]

/-- Witness for `c1_record_answer_by_id_lookup` at the out-of-order
input (`"q2"` recorded first in a fresh two-question session). -/
theorem c1_witness :
    (record_answer cSession2 "q2" "a2" "" "t").1.isOk = true ∧
    (record_answer cSession2 "q2" "a2" "" "t").2.current_question_index = 1 := by
  have h := (c1_record_answer_by_id_lookup cSession2 "q2" "a2" "" "t").2 cq2 (by decide)
  exact ⟨h.1, h.2.2⟩

/-! ## Claim C7 -/

/-- Claim C7 counterexample: `pause_interview` on a COMPLETED session
does not fail with any invalid-state error: it returns success and sets
the status to `"paused"`, refuting "pause fails with `InvalidStateError`
unless the session's status is currently active". -/
theorem c7_counterexample :
    cSessionDone.session_status = "completed" ∧
    (pause_interview cSessionDone).1 =
      .success "Interview paused" { status := "paused", current_question := 2, total_questions := 1 } ∧
    (pause_interview cSessionDone).2.session_status = "paused" := by
  decide

/-- Claim C7 (amended): `pause_interview` never fails — from ANY status
(active, paused or completed alike) it unconditionally sets the status
to `"paused"` and returns success; `resume_interview` fails with an
error unless the status is currently `"paused"`, a failed resume
leaves the session unchanged, and a resume of a paused session sets the
status to `"active"`. -/
theorem c7_pause_resume_amended (s : InterviewSession) :
    ((pause_interview s).1 = .success "Interview paused"
        { status := "paused", current_question := s.current_question_index + 1,
          total_questions := s.questions.length } ∧
      (pause_interview s).2 = { s with session_status := "paused" }) ∧
    (s.session_status ≠ "paused" →
      resume_interview s = (.error "Interview is not paused", s)) ∧
    (s.session_status = "paused" →
      (resume_interview s).2 = { s with session_status := "active" } ∧
      ∃ nx, (resume_interview s).1 = .success "Interview resumed" nx) := by
  refine ⟨⟨rfl, rfl⟩, ?_, ?_⟩
  · intro hne
    simp [resume_interview, hne]
  · intro hp
    simp [resume_interview, hp]

/-- Witness for `c7_pause_resume_amended`: pausing a completed session,
a failed resume on a completed session, and a successful resume of a
paused session. -/
theorem c7_witness :
    (pause_interview cSessionDone).2.session_status = "paused" ∧
    resume_interview cSessionDone = (.error "Interview is not paused", cSessionDone) ∧
    (resume_interview cSessionPaused).2.session_status = "active" := by
  refine ⟨?_, (c7_pause_resume_amended cSessionDone).2.1 (by decide), ?_⟩
  · rw [(c7_pause_resume_amended cSessionDone).1.2]
  · rw [((c7_pause_resume_amended cSessionPaused).2.2 (by decide)).1]

/-! ## Claim C8 -/

/-- Raw record fixture: id `q1`, text `A?`, no difficulty. -/
def rawDup1 : RawQuestion :=
  { question_id := some "q1", question_text := some "A?"
    category := some "technical", difficulty := none }

/-- Raw record fixture sharing the id `q1`. -/
def rawDup2 : RawQuestion :=
  { question_id := some "q1", question_text := some "B?"
    category := some "behavioral", difficulty := some "hard" }

/-- Raw record fixture with empty text. -/
def rawEmptyText : RawQuestion :=
  { question_id := some "q2", question_text := some ""
    category := some "general", difficulty := none }

/-- Claim C8 counterexample: the loader accepts two records sharing the
id `"q1"` (no `DuplicateQuestionIdError`) and accepts a record whose
text is the empty string (no `InvalidQuestionError`); no error is
reported in either case.  (The `difficulty` default to `"medium"` is
visible in the loaded values.) -/
theorem c8_counterexample :
    load_questions [rawDup1, rawDup2] =
      ([{ question_id := "q1", question_text := "A?", category := "technical", difficulty := "medium" },
        { question_id := "q1", question_text := "B?", category := "behavioral", difficulty := "hard" }],
       false) ∧
    load_questions [rawEmptyText] =
      ([{ question_id := "q2", question_text := "", category := "general", difficulty := "medium" }],
       false) := by
  decide

/-- Claim C8 (amended): the loader validates only field PRESENCE: every
record carrying the three required fields (`question_id`,
`question_text`, `category`) is loaded as is — duplicate ids within the
input and empty text included — with no error, and a record missing the
`difficulty` field defaults it to `"medium"`.  (Only a record missing a
required field trips the error branch.) -/
theorem c8_loader_amended (rs : List RawQuestion)
    (h : ∀ r ∈ rs, r.question_id.isSome ∧ r.question_text.isSome ∧ r.category.isSome) :
    load_questions rs =
      (rs.map (fun r =>
        { question_id := r.question_id.getD "", question_text := r.question_text.getD "",
          category := r.category.getD "", difficulty := r.difficulty.getD "medium" }),
       false) := by
  induction rs with
  | nil => rfl
  | cons r rest ih =>
      obtain ⟨h1, h2, h3⟩ := h r (List.mem_cons_self r rest)
      obtain ⟨a, ha⟩ := Option.isSome_iff_exists.mp h1
      obtain ⟨b, hb⟩ := Option.isSome_iff_exists.mp h2
      obtain ⟨c, hc⟩ := Option.isSome_iff_exists.mp h3
      have hrest := ih (fun r' hr' => h r' (List.mem_cons_of_mem r hr'))
      simp [load_questions, validate_question, ha, hb, hc, hrest]

/-- Witness for `c8_loader_amended` at a list holding a duplicated id
and an empty text. -/
theorem c8_witness :
    load_questions [rawDup1, rawDup2, rawEmptyText] =
      ([{ question_id := "q1", question_text := "A?", category := "technical", difficulty := "medium" },
        { question_id := "q1", question_text := "B?", category := "behavioral", difficulty := "hard" },
        { question_id := "q2", question_text := "", category := "general", difficulty := "medium" }],
       false) := by
  rw [c8_loader_amended [rawDup1, rawDup2, rawEmptyText] (by decide)]
  rfl

/-! ## Claim C4 -/

/-- Claim C4: `ask_next_interview_question` never mutates the session
directory; when `current_index >= len(questions)` it returns the
completion summary, otherwise the question at `current_index` annotated
with its 1-based position and the total count, without advancing; two
consecutive calls with no intervening `record_interview_answer` return
identical output. -/
theorem c4_next_question_pure_idempotent (d : Directory) (sid : String) :
    (ask_next_interview_question d sid).2 = d ∧
    (ask_next_interview_question ((ask_next_interview_question d sid).2) sid).1 =
      (ask_next_interview_question d sid).1 ∧
    ∀ s, d sid = some s →
      (s.questions.length ≤ s.current_question_index →
        (ask_next_interview_question d sid).1 =
          .completed "Interview completed - no more questions"
            ⟨s.questions.length, s.answers.length, s.vacancy_info.job_title.getD "Unknown"⟩) ∧
      ∀ h : s.current_question_index < s.questions.length,
        (ask_next_interview_question d sid).1 =
          .question
            ⟨"q" ++ toString (s.current_question_index + 1),
             (s.questions.get ⟨s.current_question_index, h⟩).question.getD "",
             (s.questions.get ⟨s.current_question_index, h⟩).question_type.getD "general",
             (s.questions.get ⟨s.current_question_index, h⟩).difficulty_level.getD "medium",
             (s.questions.get ⟨s.current_question_index, h⟩).skills_assessed.getD [],
             s.current_question_index + 1, s.questions.length⟩
            ⟨sid, s.vacancy_info.job_title.getD "Unknown Position",
             s.current_question_index + 1, s.questions.length⟩ := by
  have hsnd : (ask_next_interview_question d sid).2 = d := by
    unfold ask_next_interview_question
    cases d sid with
    | none => rfl
    | some s =>
        simp only
        split <;> rfl
  refine ⟨hsnd, by rw [hsnd], ?_⟩
  intro s hlook
  constructor
  · intro hge
    unfold ask_next_interview_question
    rw [hlook]
    simp only
    rw [dif_neg (by omega)]
  · intro h
    unfold ask_next_interview_question
    rw [hlook]
    simp only
    rw [dif_pos h]

/-- Witness for `c4_next_question_pure_idempotent` on the fresh
two-question fixture directory. -/
theorem c4_witness :
    (ask_next_interview_question dir2 "default").2 = dir2 ∧
    (ask_next_interview_question dir2 "default").1 =
      .question ⟨"q1", "Tell me about yourself", "behavioral", "medium", [], 1, 2⟩
        ⟨"default", "Backend Eng", 1, 2⟩ := by
  have h := c4_next_question_pure_idempotent dir2 "default"
  refine ⟨h.1, ?_⟩
  have h2 := (h.2.2 toolSession2 (by decide)).2 (by decide)
  rw [h2]
  decide

/-! ## Claim C5 -/

/-- Successful vacancy-adapter reply fixture. -/
def vrOK : VacancyResult := { success := true, vacancy_info := vacW, error := none }

/-- Successful question-generation reply fixture (one question). -/
def qrOK : QuestionsResult := { success := true, questions := [genQ2], error := none }

/-- Claim C5 counterexample: with a completed session already stored
under `"default"`, `analyze_job_and_generate_questions` does not fail
with any duplicate-session error: it succeeds and replaces the existing
session with a fresh one (index back to 0, answers emptied) — the
overwrite policy, not the reject policy. -/
theorem c5_counterexample :
    dirDone "default" = some toolSessionDone ∧
    (analyze_job_and_generate_questions dirDone vrOK qrOK).1 =
      .success "Successfully analyzed Backend Eng and generated 1 interview questions"
        "default" 1 ∧
    (analyze_job_and_generate_questions dirDone vrOK qrOK).2 "default" =
      some (freshToolSession vrOK qrOK) ∧
    freshToolSession vrOK qrOK ≠ toolSessionDone := by
  decide

/-- Claim C5 (amended): whenever both adapter replies are successful,
`analyze_job_and_generate_questions` succeeds and unconditionally
assigns a fresh session to the id `"default"`, overwriting any session
already stored there (other directory entries are untouched); no
duplicate-session check exists. -/
theorem c5_start_overwrites (d : Directory) (vr : VacancyResult) (qr : QuestionsResult)
    (hv : vr.success = true) (hq : qr.success = true) :
    (analyze_job_and_generate_questions d vr qr).1 =
      .success ("Successfully analyzed " ++ vr.vacancy_info.job_title.getD "Unknown Position"
        ++ " and generated " ++ toString qr.questions.length ++ " interview questions")
        "default" qr.questions.length ∧
    (analyze_job_and_generate_questions d vr qr).2 "default" =
      some (freshToolSession vr qr) ∧
    ∀ k, k ≠ "default" → (analyze_job_and_generate_questions d vr qr).2 k = d k := by
  refine ⟨?_, ?_, ?_⟩
  · simp [analyze_job_and_generate_questions, hv, hq]
  · simp [analyze_job_and_generate_questions, hv, hq, updateDir]
  · intro k hk
    simp [analyze_job_and_generate_questions, hv, hq, updateDir, hk]

/-- Witness for `c5_start_overwrites` on the occupied fixture
directory. -/
theorem c5_witness :
    (analyze_job_and_generate_questions dirDone vrOK qrOK).1 =
      .success "Successfully analyzed Backend Eng and generated 1 interview questions"
        "default" 1 ∧
    (analyze_job_and_generate_questions dirDone vrOK qrOK).2 "default" =
      some (freshToolSession vrOK qrOK) := by
  have h := c5_start_overwrites dirDone vrOK qrOK rfl rfl
  exact ⟨h.1, h.2.1⟩

/-! ## Claim C6 -/

/-- Claim C6: on a session with zero questions, the first
`ask_next_interview_question` call reports completion with
`total_questions = 0` (and `total_answers = 0` for a freshly created
session) and does not mutate the directory. -/
theorem c6_empty_session_completes (d : Directory) (sid : String) (s : ToolSession)
    (h : d sid = some s) (hq : s.questions = []) (ha : s.answers = []) :
    (ask_next_interview_question d sid).1 =
      .completed "Interview completed - no more questions"
        ⟨0, 0, s.vacancy_info.job_title.getD "Unknown"⟩ ∧
    (ask_next_interview_question d sid).2 = d := by
  unfold ask_next_interview_question
  rw [h]
  simp [hq, ha]

/-- Witness for `c6_empty_session_completes` on the zero-question
fixture session. -/
theorem c6_witness :
    (ask_next_interview_question dirEmptyQ "empty").1 =
      .completed "Interview completed - no more questions" ⟨0, 0, "Backend Eng"⟩ ∧
    (ask_next_interview_question dirEmptyQ "empty").2 = dirEmptyQ := by
  exact c6_empty_session_completes dirEmptyQ "empty" toolSession0 (by decide) rfl rfl

/-! ## Claim C9 -/

/-- Claim C9: for any stored session whose status is not `"completed"`,
`provide_feedback` returns the not-completed error without invoking the
feedback adapter; conversely the adapter is invoked only on a stored
session whose status is `"completed"` (with that session's questions
and answers). -/
theorem c9_feedback_gated_on_completion (d : Directory) (sid : String) :
    (∀ s, d sid = some s → s.status ≠ "completed" →
      provide_feedback d sid =
        .notCompleted "Interview not completed yet. Please finish all questions first.") ∧
    (∀ qs as, provide_feedback d sid = .adapterCalled qs as →
      ∃ s, d sid = some s ∧ s.status = "completed" ∧ qs = s.questions ∧ as = s.answers) := by
  constructor
  · intro s hlook hne
    unfold provide_feedback
    rw [hlook]
    simp [hne]
  · intro qs as hcall
    unfold provide_feedback at hcall
    cases hlook : d sid with
    | none => rw [hlook] at hcall; exact absurd hcall (by simp)
    | some s =>
        rw [hlook] at hcall
        simp only at hcall
        by_cases hne : s.status ≠ "completed"
        · rw [if_pos hne] at hcall; exact absurd hcall (by simp)
        · rw [if_neg hne] at hcall
          push_neg at hne
          by_cases hempty : s.questions.isEmpty || s.answers.isEmpty
          · rw [if_pos hempty] at hcall; exact absurd hcall (by simp)
          · rw [if_neg hempty] at hcall
            injection hcall with h1 h2
            exact ⟨s, rfl, hne, h1.symm, h2.symm⟩

/-- Witness for `c9_feedback_gated_on_completion`: the not-yet-completed
fixture session is rejected, and the adapter invocation observed on the
completed fixture directory forces a completed stored session. -/
theorem c9_witness :
    provide_feedback dir2 "default" =
      .notCompleted "Interview not completed yet. Please finish all questions first." ∧
    ∃ s, dirDone "default" = some s ∧ s.status = "completed" ∧
      toolSessionDone.questions = s.questions ∧ toolSessionDone.answers = s.answers := by
  constructor
  · exact (c9_feedback_gated_on_completion dir2 "default").1 toolSession2 (by decide) (by decide)
  · exact (c9_feedback_gated_on_completion dirDone "default").2
      toolSessionDone.questions toolSessionDone.answers (by decide)

/-! ## Claim C10 -/

/-- Claim C10: on the module-level tool path, for any stored session
with `current_index < len(questions)` and ANY `question_id` string
whatsoever, `record_interview_answer` succeeds: it snapshots the text,
type, difficulty and skills of the question at `current_index`, stores
the caller-supplied `question_id` verbatim in the answer record, and
increments `current_question_index` by one — the `question_id` argument
is never compared to the current question. -/
theorem c10_record_ignores_question_id (d : Directory) (sid : String) (s : ToolSession)
    (h : d sid = some s) (hlt : s.current_question_index < s.questions.length)
    (question_id answer_text notes timestamp : String) :
    (record_interview_answer d sid question_id answer_text notes timestamp).1.isOk = true ∧
    ∃ s', (record_interview_answer d sid question_id answer_text notes timestamp).2 sid = some s' ∧
      s'.answers = s.answers ++
        [⟨question_id,
          (s.questions.get ⟨s.current_question_index, hlt⟩).question.getD "",
          answer_text, notes, timestamp,
          (s.questions.get ⟨s.current_question_index, hlt⟩).question_type.getD "general",
          (s.questions.get ⟨s.current_question_index, hlt⟩).difficulty_level.getD "medium",
          (s.questions.get ⟨s.current_question_index, hlt⟩).skills_assessed.getD []⟩] ∧
      s'.current_question_index = s.current_question_index + 1 ∧
      s'.questions = s.questions := by
  have hup : ∀ (X : ToolSession), updateDir d sid X sid = some X := by
    intro X
    simp [updateDir]
  simp only [record_interview_answer, h]
  rw [dif_pos hlt]
  split
  · exact ⟨rfl, _, hup _, rfl, rfl, rfl⟩
  · exact ⟨rfl, _, hup _, rfl, rfl, rfl⟩

/-- Witness for `c10_record_ignores_question_id` with a `question_id`
(`"zzz"`) matching no delivered question id. -/
theorem c10_witness :
    (record_interview_answer dir2 "default" "zzz" "my answer" "" "t9").1.isOk = true ∧
    ∃ s', (record_interview_answer dir2 "default" "zzz" "my answer" "" "t9").2 "default" = some s' ∧
      s'.answers = [⟨"zzz", "Tell me about yourself", "my answer", "", "t9", "behavioral", "medium", []⟩] ∧
      s'.current_question_index = 1 ∧
      s'.questions = [genQ1, genQ2] := by
  have h := c10_record_ignores_question_id dir2 "default" toolSession2 (by decide) (by decide)
    "zzz" "my answer" "" "t9"
  obtain ⟨hok, s', hlook, hans, hidx, hqs⟩ := h
  exact ⟨hok, s', hlook, by simpa using hans, hidx, by simpa using hqs⟩

/-! ## Claim C2 -/

/-- Every single call on the class machine keeps
`current_question_index == len(answers)`: `record_answer` appends one
record and increments the index in the same (found) branch and touches
neither in the not-found branch; the other operations touch neither
field. -/
lemma applyOp_index_eq_answers (s : InterviewSession) (o : Op)
    (h : s.current_question_index = s.answers.length) :
    (applyOp s o).current_question_index = (applyOp s o).answers.length := by
  cases o with
  | next_q => exact h
  | status_op => exact h
  | pause => simpa [applyOp, pause_interview] using h
  | resume =>
      simp only [applyOp, resume_interview]
      split
      · exact h
      · simpa using h
  | record question_id answer_text notes timestamp =>
      simp only [applyOp, record_answer]
      cases hf : s.questions.find? (fun q => q.question_id == question_id) with
      | none => simpa using h
      | some q =>
          simp only
          split
          · simp [h]
          · simp [h]

/-- No call on the class machine ever changes the question list. -/
lemma applyOp_questions_eq (s : InterviewSession) (o : Op) :
    (applyOp s o).questions = s.questions := by
  cases o with
  | next_q => rfl
  | status_op => rfl
  | pause => rfl
  | resume =>
      simp only [applyOp, resume_interview]
      split
      · rfl
      · rfl
  | record question_id answer_text notes timestamp =>
      simp only [applyOp, record_answer]
      cases hf : s.questions.find? (fun q => q.question_id == question_id) with
      | none => rfl
      | some q =>
          simp only
          split
          · rfl
          · rfl

/-- One call advances `current_question_index` by at most the number of
`record_answer` calls it contains (0 or 1). -/
lemma applyOp_index_bound (s : InterviewSession) (o : Op) :
    (applyOp s o).current_question_index ≤ s.current_question_index + countRecord [o] := by
  cases o with
  | next_q => simp [applyOp, countRecord]
  | status_op => simp [applyOp, countRecord]
  | pause => simp [applyOp, pause_interview, countRecord]
  | resume =>
      simp only [applyOp, resume_interview]
      split
      · simp [countRecord]
      · simp [countRecord]
  | record question_id answer_text notes timestamp =>
      simp only [applyOp, record_answer]
      cases hf : s.questions.find? (fun q => q.question_id == question_id) with
      | none => simp [countRecord]
      | some q =>
          simp only
          split
          · simp [countRecord]
          · simp [countRecord]

/-- `runOps` version of `applyOp_index_eq_answers`. -/
lemma runOps_index_eq_answers (ops : List Op) (s : InterviewSession)
    (h : s.current_question_index = s.answers.length) :
    (runOps s ops).current_question_index = (runOps s ops).answers.length := by
  induction ops generalizing s with
  | nil => exact h
  | cons o rest ih => exact ih (applyOp s o) (applyOp_index_eq_answers s o h)

/-- `runOps` version of `applyOp_questions_eq`. -/
lemma runOps_questions_eq (ops : List Op) (s : InterviewSession) :
    (runOps s ops).questions = s.questions := by
  induction ops generalizing s with
  | nil => rfl
  | cons o rest ih => exact (ih (applyOp s o)).trans (applyOp_questions_eq s o)

/-- `runOps` version of `applyOp_index_bound`. -/
lemma runOps_index_bound (ops : List Op) (s : InterviewSession) :
    (runOps s ops).current_question_index ≤ s.current_question_index + countRecord ops := by
  induction ops generalizing s with
  | nil => exact Nat.le_refl _
  | cons o rest ih =>
      have h1 := ih (applyOp s o)
      have h2 := applyOp_index_bound s o
      have h3 : countRecord [o] + countRecord rest = countRecord (o :: rest) := by
        cases o <;> simp [countRecord, Nat.add_comm]
      calc (runOps s (o :: rest)).current_question_index
          ≤ (applyOp s o).current_question_index + countRecord rest := h1
        _ ≤ s.current_question_index + countRecord [o] + countRecord rest :=
            Nat.add_le_add_right h2 _
        _ = s.current_question_index + countRecord (o :: rest) := by omega

/-- Claim C2 (amended): after every sequence of calls (`next_question`,
`record_answer`, `pause`, `resume`, `status`, failing calls included) on
a class session satisfying `current_index == len(answers)`, that
equality still holds and the question list is unchanged; the second
invariant `current_index <= len(questions)` holds whenever the number
of `record_answer` calls plus the starting index stays within
`len(questions)` — it is NOT unconditional, because `record_answer` has
no completed-session guard and a matching `question_id` recorded after
completion pushes `current_index` past `len(questions)`. -/
theorem c2_invariants_amended (s : InterviewSession) (ops : List Op)
    (h : s.current_question_index = s.answers.length) :
    (runOps s ops).current_question_index = (runOps s ops).answers.length ∧
    (runOps s ops).questions = s.questions ∧
    (countRecord ops + s.current_question_index ≤ s.questions.length →
      (runOps s ops).current_question_index ≤ (runOps s ops).questions.length) := by
  refine ⟨runOps_index_eq_answers ops s h, runOps_questions_eq ops s, ?_⟩
  intro hcount
  have h1 := runOps_index_bound ops s
  have h2 := runOps_questions_eq ops s
  rw [h2]
  omega

/-- Claim C2 counterexample: on a one-question class session, two
`record_answer` calls with the (always-matching) id `"q1"` leave
`current_question_index = 2 > 1 = len(questions)`: the invariant
`current_index <= len(questions)` fails because the second call is
accepted on the already-completed session. -/
theorem c2_counterexample :
    cSession1.questions.length = 1 ∧
    (runOps cSession1 [.record "q1" "a1" "" "t1", .record "q1" "a2" "" "t2"]).current_question_index = 2 ∧
    ¬ ((runOps cSession1 [.record "q1" "a1" "" "t1", .record "q1" "a2" "" "t2"]).current_question_index ≤
        (runOps cSession1 [.record "q1" "a1" "" "t1", .record "q1" "a2" "" "t2"]).questions.length) := by
  decide

/-- Witness for `c2_invariants_amended` on a five-call sequence
exercising every operation, including an in-bounds record. -/
theorem c2_witness :
    (runOps cSession2 [.next_q, .record "q1" "a" "" "t", .pause, .resume, .status_op]).current_question_index =
      (runOps cSession2 [.next_q, .record "q1" "a" "" "t", .pause, .resume, .status_op]).answers.length ∧
    (runOps cSession2 [.next_q, .record "q1" "a" "" "t", .pause, .resume, .status_op]).current_question_index ≤
      (runOps cSession2 [.next_q, .record "q1" "a" "" "t", .pause, .resume, .status_op]).questions.length := by
  have h := c2_invariants_amended cSession2
    [.next_q, .record "q1" "a" "" "t", .pause, .resume, .status_op] rfl
  exact ⟨h.1, h.2.2 (by decide)⟩

/-! ## Claim C3 -/

/-- Single-step behaviour of `record_interview_answer` on a stored
session with a question remaining: it stores an updated session with
one more answer and an incremented index, flips the status to
`"completed"` exactly when the new index reaches `len(questions)`, and
returns the completed summary (on the last question) or success with
the next question (otherwise). -/
lemma record_step (d : Directory) (sid question_id answer_text notes timestamp : String)
    (s : ToolSession) (h : d sid = some s)
    (hlt : s.current_question_index < s.questions.length) :
    ∃ s', (record_interview_answer d sid question_id answer_text notes timestamp).2 sid = some s' ∧
      s'.questions = s.questions ∧
      s'.current_question_index = s.current_question_index + 1 ∧
      s'.answers.length = s.answers.length + 1 ∧
      s'.status = (if s.questions.length ≤ s.current_question_index + 1 then "completed" else s.status) ∧
      (s.questions.length ≤ s.current_question_index + 1 →
        ∃ m sum, (record_interview_answer d sid question_id answer_text notes timestamp).1 =
          .completed m sum) ∧
      (s.current_question_index + 1 < s.questions.length →
        ∃ m nx, (record_interview_answer d sid question_id answer_text notes timestamp).1 =
          .success m nx) := by
  have hup : ∀ (X : ToolSession), updateDir d sid X sid = some X := by
    intro X
    simp [updateDir]
  simp only [record_interview_answer, h]
  rw [dif_pos hlt]
  split
  case isTrue hc =>
    refine ⟨_, hup _, rfl, rfl, by simp, rfl, ?_, ?_⟩
    · intro _
      exact ⟨_, _, rfl⟩
    · intro h2
      omega
  case isFalse hc =>
    refine ⟨_, hup _, rfl, rfl, by simp, rfl, ?_, ?_⟩
    · intro h2
      omega
    · intro _
      exact ⟨_, _, rfl⟩

/-- Invariant of the in-order recording sequence: after `k ≤ N` in-order
record calls on a fresh session, the stored session has index `k`, `k`
answers, and status `"completed"` exactly when `k = N`. -/
lemma recordSeq_state (d : Directory) (sid : String) (s0 : ToolSession)
    (af tf : Nat → String)
    (h : d sid = some s0) (h0 : s0.current_question_index = 0)
    (ha : s0.answers = []) (hs : s0.status = "ready") (hN : 1 ≤ s0.questions.length) :
    ∀ k, k ≤ s0.questions.length →
      ∃ sk, recordSeq d sid af tf k sid = some sk ∧
        sk.questions = s0.questions ∧
        sk.current_question_index = k ∧
        sk.answers.length = k ∧
        sk.status = (if k = s0.questions.length then "completed" else "ready") := by
  intro k
  induction k with
  | zero =>
      intro _
      refine ⟨s0, h, rfl, h0, by rw [ha]; rfl, ?_⟩
      rw [if_neg (by omega), hs]
  | succ k ih =>
      intro hk1
      obtain ⟨sk, hlk, hq, hi, han, hst⟩ := ih (by omega)
      have hklt : sk.current_question_index < sk.questions.length := by
        rw [hi, hq]
        omega
      obtain ⟨sk1, hlk1, hq1, hi1, han1, hst1, _, _⟩ :=
        record_step (recordSeq d sid af tf k) sid ("q" ++ toString (k + 1)) (af k) "" (tf k)
          sk hlk hklt
      refine ⟨sk1, hlk1, ?_, ?_, ?_, ?_⟩
      · rw [hq1, hq]
      · rw [hi1, hi]
      · rw [han1, han]
      · rw [hst1, hq, hi, hst]
        by_cases hcase : k + 1 = s0.questions.length
        · rw [if_pos (by omega), if_pos hcase]
        · rw [if_neg (by omega), if_neg (by omega), if_neg hcase]

/-- Claim C3: on a fresh session with `N ≥ 1` questions whose answers are
recorded in delivered order, the state before the `(k+1)`-th call has
`k` answers, index `k` and a non-completed status; each successful call
appends one answer record and increments the index; the status becomes
`"completed"` exactly on the `N`-th call and not before; the `N`-th call
returns the completed status with a summary while earlier calls return
success with the next question. -/
theorem c3_ordered_recording_completion (d : Directory) (sid : String) (s0 : ToolSession)
    (af tf : Nat → String)
    (h : d sid = some s0) (h0 : s0.current_question_index = 0)
    (ha : s0.answers = []) (hs : s0.status = "ready") (hN : 1 ≤ s0.questions.length)
    (k : Nat) (hk : k < s0.questions.length) :
    (∃ sk, recordSeq d sid af tf k sid = some sk ∧
       sk.current_question_index = k ∧ sk.answers.length = k ∧ sk.status = "ready") ∧
    (∃ sk1, recordSeq d sid af tf (k + 1) sid = some sk1 ∧
       sk1.current_question_index = k + 1 ∧ sk1.answers.length = k + 1 ∧
       sk1.status = (if k + 1 = s0.questions.length then "completed" else "ready")) ∧
    (k + 1 = s0.questions.length →
      ∃ m sum, (record_interview_answer (recordSeq d sid af tf k) sid
        ("q" ++ toString (k + 1)) (af k) "" (tf k)).1 = .completed m sum) ∧
    (k + 1 < s0.questions.length →
      ∃ m nx, (record_interview_answer (recordSeq d sid af tf k) sid
        ("q" ++ toString (k + 1)) (af k) "" (tf k)).1 = .success m nx) := by
  obtain ⟨sk, hlk, hq, hi, han, hst⟩ :=
    recordSeq_state d sid s0 af tf h h0 ha hs hN k (by omega)
  obtain ⟨sk1, hlk1, hq1, hi1, han1, hst1⟩ :=
    recordSeq_state d sid s0 af tf h h0 ha hs hN (k + 1) (by omega)
  have hklt : sk.current_question_index < sk.questions.length := by
    rw [hi, hq]
    exact hk
  obtain ⟨_, _, _, _, _, _, hcomp, hsucc⟩ :=
    record_step (recordSeq d sid af tf k) sid ("q" ++ toString (k + 1)) (af k) "" (tf k)
      sk hlk hklt
  refine ⟨⟨sk, hlk, hi, han, ?_⟩, ⟨sk1, hlk1, hi1, han1, hst1⟩, ?_, ?_⟩
  · rw [hst, if_neg (by omega)]
  · intro hEq
    refine hcomp ?_
    rw [hq, hi]
    omega
  · intro hlt2
    refine hsucc ?_
    rw [hq, hi]
    omega

/-- Constant answer-text function for the C3 witness run. -/
def afW : Nat → String := fun _ => "an answer"

/-- Constant timestamp function for the C3 witness run. -/
def tfW : Nat → String := fun _ => "t"

/-- Witness for `c3_ordered_recording_completion` on the fresh
two-question fixture directory at `k = 1` (the final question). -/
theorem c3_witness :
    (∃ sk1, recordSeq dir2 "default" afW tfW (1 + 1) "default" = some sk1 ∧
       sk1.current_question_index = 1 + 1 ∧ sk1.answers.length = 1 + 1 ∧
       sk1.status = (if 1 + 1 = toolSession2.questions.length then "completed" else "ready")) ∧
    ∃ m sum, (record_interview_answer (recordSeq dir2 "default" afW tfW 1) "default"
      ("q" ++ toString (1 + 1)) (afW 1) "" (tfW 1)).1 = .completed m sum := by
  have hh := c3_ordered_recording_completion dir2 "default" toolSession2 afW tfW
    (by decide) rfl rfl rfl (by decide) 1 (by decide)
  exact ⟨hh.2.1, hh.2.2.1 (by decide)⟩
